import Mathlib

/-!
Shallow embedding of the stage/reproduction core of the dvc repository
(src/dvc/stage.py, src/dvc/output/{s3,gs,hdfs}.py).

Pure Python helpers become Lean functions.  Side effects of `reproduce`,
`run`, `save` and `remove` (output removal, command execution, entry
saves) are recorded as an explicit event trace, and the mutable object
state (the entries' recorded fingerprints `info` and the stage's stored
`md5`) is threaded functionally: each operation returns the updated
`Stage` value.  Collaborators that live outside the embedded files
(per-entry `changed()`/`status()`/`save()` results, `os.path.exists`,
`os.path.relpath`, command exit codes) are supplied by an explicit
environment record `Env`, exactly at the points where stage.py calls
into them.
-/

namespace Dvc

/-- Serialized record of a single dependency or output, as produced by
`entry.dumpd()`.  Modelled from the spec: the dependency/output base
classes are not under src/; per the spec an entry serializes its path,
its recorded fingerprint, and (for outputs) the `cache` flag in a
stable key order. -/
structure EntryDict where
  path : String
  info : Option String
  cache : Option Bool
deriving DecidableEq, Repr

/-- A tracked dependency or output entry of a stage.  `info` is the
recorded fingerprint (`None` = never recorded); `cacheFlag` is the
`use_cache` flag for outputs (`none` for dependencies, which do not
serialize a cache key). -/
structure Entry where
  path : String
  info : Option String
  cacheFlag : Option Bool
deriving DecidableEq, Repr

/-- Modelled from the spec: `entry.dumpd()` serializes path, fingerprint
and, when present, the cache flag (the base classes are not under src/). -/
def Entry.dumpd (e : Entry) : EntryDict :=
  { path := e.path, info := e.info, cache := e.cacheFlag }

/-- The dictionary built by `Stage.dumpd` before the `md5` key is added:
`cmd` is present iff non-None, `deps`/`outs` are present iff non-empty
(stage.py lines 197-205). -/
structure BareDict where
  cmd : Option String
  deps : Option (List EntryDict)
  outs : Option (List EntryDict)
deriving DecidableEq, Repr

/-- The full dictionary returned by `Stage.dumpd`: the bare record plus
the `md5` key computed over the bare record. -/
structure StageDict where
  bare : BareDict
  md5 : String
deriving DecidableEq, Repr

/-- Type of the `dict_md5` helper from dvc/utils (not under src/): an
arbitrary pure function of the dictionary it is given.  Where a theorem
needs it, the fact that a real md5 hexdigest is a non-empty string is an
explicit hypothesis. -/
abbrev Md5Fn := BareDict → String

/-- Python truthiness of an optional string: `None` and the empty string
are falsy. -/
def truthy : Option String → Bool
  | none => false
  | some s => s != ""

/-- A stage: command, dependency and output entries, stored aggregate
fingerprint (stage.py `Stage.__init__`). -/
structure Stage where
  path : String
  cmd : Option String
  cwd : String
  deps : List Entry
  outs : List Entry
  md5 : Option String
deriving DecidableEq, Repr

/-- Environment of external collaborators consulted by stage.py:
per-entry `changed()` and `status()` results and the fingerprint that
`entry.save()` records (keyed by entry path), `os.path.exists`,
`os.path.relpath`, and the exit code of running a command string. -/
structure Env where
  entryChanged : String → Bool
  entryStatus : String → List (String × String)
  saveInfo : String → String
  pathExists : String → Bool
  relpath : String → String
  exitCode : String → Int

/-- stage.py `Stage.is_data_source`: the command is None. -/
def Stage.is_data_source (s : Stage) : Bool :=
  s.cmd == none

/-- stage.py `Stage.is_callback`: not a data source and `deps` empty. -/
def Stage.is_callback (s : Stage) : Bool :=
  !s.is_data_source && s.deps.length == 0

/-- stage.py `Stage.dumpd` without the final `md5` key. -/
def Stage.bareDumpd (s : Stage) : BareDict :=
  { cmd := s.cmd
    deps := if s.deps.length == 0 then none else some (s.deps.map Entry.dumpd)
    outs := if s.outs.length == 0 then none else some (s.outs.map Entry.dumpd) }

/-- stage.py `Stage.dumpd`: serialize cmd/deps/outs, then add the
`md5` key computed by `dict_md5` over the record built so far. -/
def Stage.dumpd (s : Stage) (H : Md5Fn) : StageDict :=
  { bare := s.bareDumpd, md5 := H s.bareDumpd }

/-- stage.py `Stage.changed_md5`: recompute the aggregate fingerprint
via `dumpd` and compare with the stored `md5`; a stored `md5` of None
returns False (backward compatibility), and the equality short-cut
requires both values to be truthy. -/
def Stage.changed_md5 (s : Stage) (H : Md5Fn) : Bool :=
  let computed := (s.dumpd H).md5
  match s.md5 with
  | none => false
  | some m => if (m != "") && (computed != "") && (m == computed) then false else true

/-- stage.py `Stage.changed`: start from False, set the flag on each of
the three conditions in turn (callback, any out/dep entry changed,
aggregate fingerprint changed) without short-circuiting, and return the
accumulated flag. -/
def Stage.changed (s : Stage) (env : Env) (H : Md5Fn) : Bool :=
  let r0 := false
  let r1 := if s.is_callback then true else r0
  let r2 := (s.outs ++ s.deps).foldl
    (fun r e => if env.entryChanged e.path then true else r) r1
  if s.changed_md5 H then true else r2

/-- One observable side effect of reproduction, in program order. -/
inductive Event where
  | removeOut : String → Bool → Event
  | execCmd : String → Event
  | saveEntry : String → Event
deriving DecidableEq, Repr

/-- The two exceptions that `Stage.run` can raise. -/
inductive Err where
  | stageCmdFailed : String → String → Err
  | missingDataSource : List String → Err
deriving DecidableEq, Repr

/-- Modelled from the spec: `entry.save()` recomputes and records the
entry's fingerprint (the dependency/output base classes are not under
src/); the freshly computed fingerprint is supplied by the environment. -/
def Entry.save (env : Env) (e : Entry) : Entry :=
  { e with info := some (env.saveInfo e.path) }

/-- stage.py `Stage.save`: save every dependency, then every output.
Returns the updated stage (refreshed entry fingerprints; the stage's
own `md5` field is not touched) and the save events in order. -/
def Stage.save (s : Stage) (env : Env) : Stage × List Event :=
  ({ s with deps := s.deps.map (Entry.save env), outs := s.outs.map (Entry.save env) },
   s.deps.map (fun e => Event.saveEntry e.path) ++ s.outs.map (fun e => Event.saveEntry e.path))

/-- stage.py `Stage.check_missing_outputs`: the relative paths of all
declared outputs that do not exist on the filesystem. -/
def Stage.missing_outs (s : Stage) (env : Env) : List String :=
  (s.outs.map (fun o => env.relpath o.path)).filter (fun p => !env.pathExists p)

/-- Result of `run`/`reproduce`: the exception raised (if any), the
stage object's state afterwards, and the trace of side effects. -/
structure ReproResult where
  err : Option Err
  stage : Stage
  events : List Event
deriving DecidableEq, Repr

/-- stage.py `Stage.run`: for a non-data-source stage execute the
command and raise `StageCmdFailedError` on a non-zero exit, otherwise
save; for a data-source stage check for missing outputs (raising
`MissingDataSource` with every missing path) and save.  A raise leaves
the stage object untouched. -/
def Stage.run (s : Stage) (env : Env) : ReproResult :=
  if !s.is_data_source then
    let c := s.cmd.getD ""
    if env.exitCode c != 0 then
      { err := some (Err.stageCmdFailed (env.relpath s.path) c), stage := s,
        events := [Event.execCmd c] }
    else
      let sv := s.save env
      { err := none, stage := sv.1, events := Event.execCmd c :: sv.2 }
  else
    let missing := s.missing_outs env
    if missing != [] then
      { err := some (Err.missingDataSource missing), stage := s, events := [] }
    else
      let sv := s.save env
      { err := none, stage := sv.1, events := sv.2 }

/-- stage.py `Stage.reproduce`: return None (here `none`) when the
stage is unchanged and not forced; otherwise remove all outputs with
`ignore_remove=False` — but only when `self.cmd` is truthy — and run. -/
def Stage.reproduce (s : Stage) (env : Env) (H : Md5Fn) (force : Bool) : Option ReproResult :=
  if !(s.changed env H) && !force then
    none
  else
    let removeEvs :=
      if truthy s.cmd then s.outs.map (fun o => Event.removeOut o.path false) else []
    let r := s.run env
    some { r with events := removeEvs ++ r.events }

/-! Helper lemmas. -/

/-- The accumulate-a-flag loop of `Stage.changed` computes the
disjunction of the initial flag with "some entry reports changed". -/
theorem foldl_changed_or (env : Env) (l : List Entry) (b : Bool) :
    l.foldl (fun r e => if env.entryChanged e.path then true else r) b
      = (b || l.any (fun e => env.entryChanged e.path)) := by
  induction l generalizing b with
  | nil => simp
  | cons x xs ih =>
    simp only [List.foldl_cons, List.any_cons, ih]
    cases hx : env.entryChanged x.path <;> simp [hx]

/-- Characterization of `changed_md5` when `dict_md5` returns non-empty
strings (a real md5 hexdigest always is): true exactly when a stored
fingerprint exists and differs from the recomputed one. -/
theorem changed_md5_iff (s : Stage) (H : Md5Fn) (hH : ∀ b, H b ≠ "") :
    s.changed_md5 H = true ↔ (s.md5 ≠ none ∧ s.md5 ≠ some ((s.dumpd H).md5)) := by
  cases hm : s.md5 with
  | none => simp [Stage.changed_md5, hm]
  | some m =>
    have hc : (s.dumpd H).md5 ≠ "" := hH s.bareDumpd
    by_cases hmc : m = (s.dumpd H).md5
    · subst hmc
      simp [Stage.changed_md5, hm, hc]
    · simp [Stage.changed_md5, hm, hmc]

/-! Concrete values used by witnesses and counterexamples. -/

/-- Concrete environment: no entry reports a change or a status, every
path exists, every command exits 0. -/
def wEnv : Env :=
  { entryChanged := fun _ => false
    entryStatus := fun _ => []
    saveInfo := fun _ => "fp"
    pathExists := fun _ => true
    relpath := fun p => p
    exitCode := fun _ => 0 }

/-- Concrete `dict_md5` stand-in returning a fixed non-empty digest. -/
def wH : Md5Fn := fun _ => "d41d8cd9"

/-- Concrete stage: one command, one dependency, one output, no stored
aggregate fingerprint. -/
def wStage1 : Stage :=
  { path := "Dvcfile", cmd := some "echo hi", cwd := ".",
    deps := [{ path := "dep1", info := some "a", cacheFlag := none }],
    outs := [{ path := "out1", info := some "b", cacheFlag := some true }],
    md5 := none }

/-! Claim theorems. -/

/-- C1: `Stage.changed` returns true iff the stage is a callback stage,
or some entry in outs/deps reports `changed()`, or the aggregate
fingerprint recomputed by `dumpd()` differs from the stored `md5`
(a stored `md5` of None counting as not changed); the result is the
disjunction of the three conditions, each of which the code evaluates
on every call (the accumulator loop in the embedding mirrors the
non-short-circuiting source).  The hypothesis records that `dict_md5`
returns a non-empty hexdigest. -/
theorem stage_changed_iff (s : Stage) (env : Env) (H : Md5Fn) (hH : ∀ b, H b ≠ "") :
    s.changed env H = true ↔
      (s.is_callback = true
        ∨ (∃ e ∈ s.outs ++ s.deps, env.entryChanged e.path = true)
        ∨ (s.md5 ≠ none ∧ s.md5 ≠ some ((s.dumpd H).md5))) := by
  rw [← changed_md5_iff s H hH]
  simp only [Stage.changed, foldl_changed_or]
  cases h1 : s.is_callback <;> cases h3 : s.changed_md5 H <;>
    simp [h1, h3, List.any_eq_true]
  aesop

/-- The concrete digest stand-in never returns the empty string. -/
theorem wH_ne_empty : ∀ b, wH b ≠ "" := fun _ => by
  unfold wH
  decide

/-- Witness for C1 at a concrete stage, environment and digest function. -/
theorem stage_changed_iff_witness :
    (∀ b, wH b ≠ "") ∧
    (wStage1.changed wEnv wH = true ↔
      (wStage1.is_callback = true
        ∨ (∃ e ∈ wStage1.outs ++ wStage1.deps, wEnv.entryChanged e.path = true)
        ∨ (wStage1.md5 ≠ none ∧ wStage1.md5 ≠ some ((wStage1.dumpd wH).md5)))) :=
  ⟨wH_ne_empty, stage_changed_iff wStage1 wEnv wH wH_ne_empty⟩

/-- Concrete stage with `cmd = None` and empty `deps` (the shape the C4
claim text calls a callback stage; the code's `is_callback` is false
for it). -/
def cStage4 : Stage :=
  { path := "Dvcfile", cmd := none, cwd := ".", deps := [], outs := [], md5 := none }

/-- C4 counterexample: a stage with `cmd = None` and empty `deps` (and
no outputs, no stored md5) has `changed() = false`, refuting the claim
that such a stage is unconditionally changed — the code's
`is_callback` requires a non-None `cmd`. -/
theorem callback_claim_cex :
    cStage4.cmd = none ∧ cStage4.deps = [] ∧ cStage4.changed wEnv wH = false :=
  ⟨rfl, rfl, by decide⟩

/-- C4 (amended): a stage with a non-None `cmd` and empty `deps` is a
callback stage and `changed()` returns true on every evaluation,
whatever the environment and digest function. -/
theorem callback_always_changed (s : Stage) (env : Env) (H : Md5Fn)
    (h1 : s.cmd ≠ none) (h2 : s.deps = []) : s.changed env H = true := by
  have hcb : s.is_callback = true := by
    simp [Stage.is_callback, Stage.is_data_source, h1, h2]
  simp only [Stage.changed, foldl_changed_or, hcb]
  cases h3 : s.changed_md5 H <;> simp

/-- Concrete callback stage: command present, no dependencies. -/
def wStage4 : Stage :=
  { path := "Dvcfile", cmd := some "seed.sh", cwd := ".", deps := [],
    outs := [{ path := "out4", info := none, cacheFlag := some true }],
    md5 := some "old" }

/-- Witness for the amended C4 at a concrete callback stage. -/
theorem callback_always_changed_witness :
    wStage4.cmd ≠ none ∧ wStage4.deps = [] ∧ wStage4.changed wEnv wH = true :=
  ⟨by decide, rfl, callback_always_changed wStage4 wEnv wH (by decide) rfl⟩

/-- C5: when `changed()` is false and `force` is false, `reproduce`
returns None; in the embedding the `none` result carries no event trace
and no successor state, i.e. no output removal, no command execution,
no save, and every field of the stage and its entries is untouched. -/
theorem reproduce_unchanged_noop (s : Stage) (env : Env) (H : Md5Fn)
    (h : s.changed env H = false) : s.reproduce env H false = none := by
  simp [Stage.reproduce, h]

/-- Witness for C5 at a concrete unchanged stage. -/
theorem reproduce_unchanged_noop_witness :
    wStage1.changed wEnv wH = false ∧ wStage1.reproduce wEnv wH false = none :=
  ⟨by decide, reproduce_unchanged_noop wStage1 wEnv wH (by decide)⟩

/-- Recognizer for command-execution events. -/
def Event.isExec : Event → Bool
  | Event.execCmd _ => true
  | _ => false

/-- Environment in which every command exits with code 1. -/
def wEnvFail : Env := { wEnv with exitCode := fun _ => 1 }

/-- Environment in which no path exists on the filesystem. -/
def wEnvMissing : Env := { wEnv with pathExists := fun _ => false }

/-- Stage holding a command that is the empty string (non-None but
falsy in Python), with one output. -/
def cStage2 : Stage :=
  { path := "Dvcfile", cmd := some "", cwd := ".", deps := [],
    outs := [{ path := "o1", info := none, cacheFlag := some true }], md5 := none }

/-- C2 counterexample: a stage whose `cmd` is the empty string is
non-None, yet `reproduce` executes the command without ever removing
the stage's output: the event trace holds no `removeOut` event at all —
`remove_outs` is guarded by Python truthiness (`if self.cmd:`), not by
a None test. -/
theorem reproduce_remove_cex :
    cStage2.cmd = some "" ∧ (cStage2.outs.map Entry.path) = ["o1"]
    ∧ (cStage2.reproduce wEnv wH false).map ReproResult.events
        = some [Event.execCmd "", Event.saveEntry "o1"] :=
  ⟨rfl, by decide, by decide⟩

/-- C2 (amended): for a stage whose `cmd` is truthy (non-None and
non-empty), once reproduction is entered (changed or forced) every
output is removed with `ignore_remove=false` strictly before the
command executes; and when the command exits non-zero the result is a
`StageCmdFailedError`, no save event is emitted, and the stage object —
its `md5` and every entry fingerprint — is exactly the pre-attempt
stage. -/
theorem stage_reproduce_cmd (s : Stage) (env : Env) (H : Md5Fn) (force : Bool)
    (hcmd : truthy s.cmd = true) (hgo : (s.changed env H || force) = true) :
    (∃ tail, (s.reproduce env H force).map ReproResult.events =
        some ((s.outs.map fun o => Event.removeOut o.path false)
          ++ Event.execCmd (s.cmd.getD "") :: tail))
    ∧ (env.exitCode (s.cmd.getD "") ≠ 0 →
        s.reproduce env H force =
          some { err := some (Err.stageCmdFailed (env.relpath s.path) (s.cmd.getD "")),
                 stage := s,
                 events := (s.outs.map fun o => Event.removeOut o.path false)
                   ++ [Event.execCmd (s.cmd.getD "")] }) := by
  cases hc : s.cmd with
  | none => rw [hc] at hcmd; simp [truthy] at hcmd
  | some c =>
    rw [hc] at hcmd
    have hds : s.is_data_source = false := by simp [Stage.is_data_source, hc]
    have hif : (!(s.changed env H) && !force) = false := by
      cases hch : s.changed env H <;> cases force <;> simp_all
    constructor
    · by_cases hec : env.exitCode c = 0
      · exact ⟨(s.save env).2, by
          simp [Stage.reproduce, Stage.run, hif, hds, hc, hcmd, hec, Option.getD]⟩
      · exact ⟨[], by
          simp [Stage.reproduce, Stage.run, hif, hds, hc, hcmd, hec, Option.getD]⟩
    · intro hec
      simp only [Option.getD] at hec
      simp [Stage.reproduce, Stage.run, hif, hds, hc, hcmd, hec, Option.getD]

/-- Witness for the amended C2: a callback stage with a real command
reproduced in an environment where the command fails. -/
theorem stage_reproduce_cmd_witness :
    truthy wStage4.cmd = true ∧ (wStage4.changed wEnvFail wH || false) = true
    ∧ ((∃ tail, (wStage4.reproduce wEnvFail wH false).map ReproResult.events =
          some ((wStage4.outs.map fun o => Event.removeOut o.path false)
            ++ Event.execCmd (wStage4.cmd.getD "") :: tail))
       ∧ (wEnvFail.exitCode (wStage4.cmd.getD "") ≠ 0 →
          wStage4.reproduce wEnvFail wH false =
            some { err := some (Err.stageCmdFailed (wEnvFail.relpath wStage4.path)
                     (wStage4.cmd.getD "")),
                   stage := wStage4,
                   events := (wStage4.outs.map fun o => Event.removeOut o.path false)
                     ++ [Event.execCmd (wStage4.cmd.getD "")] })) :=
  ⟨by decide, by decide, stage_reproduce_cmd wStage4 wEnvFail wH false (by decide) (by decide)⟩

/-- Stage with a command and no entries, no stored fingerprint. -/
def cStage3 : Stage :=
  { path := "Dvcfile", cmd := some "gen.sh", cwd := ".", deps := [], outs := [], md5 := none }

/-- C3 counterexample: reproduction of `cStage3` succeeds (`err = none`)
yet afterwards the stored `md5` field still differs from the aggregate
fingerprint recomputed by `dumpd` — `Stage.save`/`Stage.run` never
touch `self.md5`, so nothing persists the aggregate fingerprint during
reproduction. -/
theorem run_md5_not_saved_cex :
    ((cStage3.reproduce wEnv wH true).map
        (fun r => (r.err, r.stage.md5 == some ((r.stage.dumpd wH).md5))))
      = some (none, false) := by decide

/-- C3 (amended): when `run` succeeds, every dependency and every
output has been `save()`d (its fingerprint refreshed to the newly
computed one), while the stage's stored `md5` field and `cmd` are left
unchanged — recomputing and persisting the aggregate fingerprint is
deferred to a later `dumpd()`/`dump()` by the caller, which
`run`/`reproduce` do not invoke. -/
theorem stage_run_saves (s : Stage) (env : Env) (h : (s.run env).err = none) :
    (s.run env).stage.deps = s.deps.map (Entry.save env)
    ∧ (s.run env).stage.outs = s.outs.map (Entry.save env)
    ∧ (s.run env).stage.md5 = s.md5
    ∧ (s.run env).stage.cmd = s.cmd := by
  cases hds : s.is_data_source with
  | false =>
    by_cases hec : env.exitCode (s.cmd.getD "") = 0
    · simp [Stage.run, hds, hec, Stage.save]
    · exfalso
      simp [Stage.run, hds, hec] at h
  | true =>
    by_cases hm : s.missing_outs env = []
    · simp [Stage.run, hds, hm, Stage.save]
    · exfalso
      simp [Stage.run, hds, hm] at h

/-- Witness for the amended C3 at a concrete successful run. -/
theorem stage_run_saves_witness :
    (wStage1.run wEnv).err = none
    ∧ ((wStage1.run wEnv).stage.deps = wStage1.deps.map (Entry.save wEnv)
       ∧ (wStage1.run wEnv).stage.outs = wStage1.outs.map (Entry.save wEnv)
       ∧ (wStage1.run wEnv).stage.md5 = wStage1.md5
       ∧ (wStage1.run wEnv).stage.cmd = wStage1.cmd) :=
  ⟨by decide, stage_run_saves wStage1 wEnv (by decide)⟩

/-- C6: a data-source stage (`cmd = None`) never executes a command;
when some declared outputs are missing, `run` raises
`MissingDataSource` carrying the relative path of every missing output
(all of them, not only the first) and changes nothing; when all outputs
exist, every dependency and output is saved. -/
theorem stage_data_source_run (s : Stage) (env : Env) (hds : s.cmd = none) :
    ((s.run env).events.all (fun ev => ! ev.isExec) = true)
    ∧ (s.missing_outs env ≠ [] →
        (s.run env = { err := some (Err.missingDataSource (s.missing_outs env)), stage := s, events := [] }
         ∧ s.missing_outs env
             = (s.outs.map fun o => env.relpath o.path).filter (fun p => !env.pathExists p)))
    ∧ (s.missing_outs env = [] →
        s.run env = { err := none, stage := { s with deps := s.deps.map (Entry.save env), outs := s.outs.map (Entry.save env) }, events := s.deps.map (fun e => Event.saveEntry e.path) ++ s.outs.map (fun e => Event.saveEntry e.path) }) := by
  have hds' : s.is_data_source = true := by simp [Stage.is_data_source, hds]
  by_cases hm : s.missing_outs env = []
  · refine ⟨?_, by simp [hm], fun _ => by simp [Stage.run, hds', hm, Stage.save]⟩
    simp only [Stage.run, hds', hm, Stage.save]
    simp [List.all_eq_true, Event.isExec]
  · have hrun : s.run env
        = { err := some (Err.missingDataSource (s.missing_outs env)), stage := s, events := [] } := by
      simp [Stage.run, hds', hm]
    refine ⟨by simp [hrun], fun _ => ⟨hrun, rfl⟩, by simp [hm]⟩

/-- Data-source stage declaring two outputs. -/
def wStage6 : Stage :=
  { path := "data.dvc", cmd := none, cwd := ".", deps := [],
    outs := [{ path := "m1", info := none, cacheFlag := some true },
             { path := "m2", info := none, cacheFlag := some true }], md5 := none }

/-- Witness for C6: with both outputs absent, the raised error lists
both missing paths. -/
theorem stage_data_source_run_witness :
    wStage6.cmd = none
    ∧ (((wStage6.run wEnvMissing).events.all (fun ev => ! ev.isExec) = true)
       ∧ (wStage6.missing_outs wEnvMissing ≠ [] →
           (wStage6.run wEnvMissing = { err := some (Err.missingDataSource (wStage6.missing_outs wEnvMissing)), stage := wStage6, events := [] }
            ∧ wStage6.missing_outs wEnvMissing
                = (wStage6.outs.map fun o => wEnvMissing.relpath o.path).filter
                    (fun p => !wEnvMissing.pathExists p)))
       ∧ (wStage6.missing_outs wEnvMissing = [] →
           wStage6.run wEnvMissing = { err := none, stage := { wStage6 with deps := wStage6.deps.map (Entry.save wEnvMissing), outs := wStage6.outs.map (Entry.save wEnvMissing) }, events := wStage6.deps.map (fun e => Event.saveEntry e.path) ++ wStage6.outs.map (fun e => Event.saveEntry e.path) })) :=
  ⟨rfl, stage_data_source_run wStage6 wEnvMissing rfl⟩

/-- Stage used for the C7 witness. -/
def wStage7a : Stage :=
  { path := "a.dvc", cmd := some "c", cwd := ".",
    deps := [{ path := "d", info := some "h1", cacheFlag := none }],
    outs := [{ path := "o", info := some "h2", cacheFlag := some true }], md5 := none }

/-- Stage with the same serialized (cmd, deps, outs) triple as
`wStage7a` but a different descriptor path, cwd and stored md5. -/
def wStage7b : Stage :=
  { path := "b.dvc", cmd := some "c", cwd := "/other",
    deps := [{ path := "d", info := some "h1", cacheFlag := none }],
    outs := [{ path := "o", info := some "h2", cacheFlag := some true }], md5 := some "zzz" }

/-- C7: the aggregate fingerprint of `dumpd()` is `dict_md5` applied to
the serialized cmd/deps/outs record that excludes the md5 field (the
`BareDict` type has no md5 field), so it depends only on that
serialized form: two stages agreeing on cmd and on the serialized deps
and outs lists — whatever their path, cwd or stored md5 — get the same
aggregate fingerprint, and dumpd is a pure function, so two calls on
the same triple agree. -/
theorem stage_dumpd_deterministic (H : Md5Fn) (s1 s2 : Stage)
    (hc : s1.cmd = s2.cmd)
    (hd : s1.deps.map Entry.dumpd = s2.deps.map Entry.dumpd)
    (ho : s1.outs.map Entry.dumpd = s2.outs.map Entry.dumpd) :
    (s1.dumpd H).md5 = (s2.dumpd H).md5 ∧ (s1.dumpd H).md5 = H s1.bareDumpd := by
  have hlen_d : s1.deps.length = s2.deps.length := by
    have h := congrArg List.length hd
    simpa using h
  have hlen_o : s1.outs.length = s2.outs.length := by
    have h := congrArg List.length ho
    simpa using h
  have hb : s1.bareDumpd = s2.bareDumpd := by
    simp [Stage.bareDumpd, hc, hd, ho, hlen_d, hlen_o]
  exact ⟨by simp [Stage.dumpd, hb], rfl⟩

/-- Witness for C7: two concrete stages with equal serialized triples
but different path/cwd/md5 receive the same aggregate fingerprint. -/
theorem stage_dumpd_deterministic_witness :
    (wStage7a.cmd = wStage7b.cmd
     ∧ wStage7a.deps.map Entry.dumpd = wStage7b.deps.map Entry.dumpd
     ∧ wStage7a.outs.map Entry.dumpd = wStage7b.outs.map Entry.dumpd)
    ∧ ((wStage7a.dumpd wH).md5 = (wStage7b.dumpd wH).md5
       ∧ (wStage7a.dumpd wH).md5 = wH wStage7a.bareDumpd) :=
  ⟨⟨rfl, rfl, rfl⟩, stage_dumpd_deterministic wH wStage7a wStage7b rfl rfl rfl⟩

/-! Backend output entries (src/dvc/output/{s3,gs,hdfs}.py). -/

/-- An s3 output entry as recorded by `OutputS3.__init__`. -/
structure OutputS3 where
  path : String
  info : Option String
  remote : String
  use_cache : Bool
deriving DecidableEq, Repr

/-- A gs output entry as recorded by `OutputGS.__init__`. -/
structure OutputGS where
  path : String
  info : Option String
  remote : String
  use_cache : Bool
deriving DecidableEq, Repr

/-- An hdfs output entry as recorded by `OutputHDFS.__init__`. -/
structure OutputHDFS where
  path : String
  info : Option String
  remote : String
  use_cache : Bool
deriving DecidableEq, Repr

/-- src/dvc/output/s3.py `OutputS3.__init__`: record the fields, then
raise `DvcException` when caching is requested but `project.cache.s3`
is None (`cacheS3` is that configured cache location). -/
def OutputS3.init (cacheS3 : Option String) (path : String) (info : Option String) (remote : String) (cache : Bool) : Except String OutputS3 :=
  if cache && cacheS3 == none then
    Except.error "No cache location setup for 's3' outputs."
  else
    Except.ok { path := path, info := info, remote := remote, use_cache := cache }

/-- src/dvc/output/gs.py `OutputGS.__init__`: same shape for the gs
backend. -/
def OutputGS.init (cacheGS : Option String) (path : String) (info : Option String) (remote : String) (cache : Bool) : Except String OutputGS :=
  if cache && cacheGS == none then
    Except.error "No cache location setup for 'gs' outputs."
  else
    Except.ok { path := path, info := info, remote := remote, use_cache := cache }

/-- src/dvc/output/hdfs.py `OutputHDFS.__init__`: same shape for the
hdfs backend. -/
def OutputHDFS.init (cacheHDFS : Option String) (path : String) (info : Option String) (remote : String) (cache : Bool) : Except String OutputHDFS :=
  if cache && cacheHDFS == none then
    Except.error "No cache location setup for 'hdfs' outputs."
  else
    Except.ok { path := path, info := info, remote := remote, use_cache := cache }

/-- C8: for each of the three backends, construction succeeds exactly
when it is not the case that caching is requested while no cache is
configured for that backend; in particular `cache = false` never
raises the configuration error, and `cache = true` with an
unconfigured cache raises it at construction time. -/
theorem output_cache_config_error (cfg : Option String) (path : String) (info : Option String) (remote : String) (cache : Bool) :
    ((OutputS3.init cfg path info remote cache).isOk = !(cache && cfg == none))
    ∧ ((OutputGS.init cfg path info remote cache).isOk = !(cache && cfg == none))
    ∧ ((OutputHDFS.init cfg path info remote cache).isOk = !(cache && cfg == none)) := by
  cases cache <;> cases cfg <;>
    simp [OutputS3.init, OutputGS.init, OutputHDFS.init, Except.isOk, Except.toBool]

/-- An invocation of a backend remote handle: `remote.remove(path_info)`. -/
inductive RemoteOp where
  | remove : String → String → RemoteOp
deriving DecidableEq, Repr

/-- src/dvc/output/s3.py `OutputS3.remove`: unconditionally invoke
`self.remote.remove(self.path_info)`; the `ignore_remove` parameter is
accepted but never consulted. -/
def OutputS3.remove (o : OutputS3) (_ignore_remove : Bool) : RemoteOp :=
  RemoteOp.remove o.remote o.path

/-- src/dvc/output/gs.py `OutputGS.remove`: same shape for gs. -/
def OutputGS.remove (o : OutputGS) (_ignore_remove : Bool) : RemoteOp :=
  RemoteOp.remove o.remote o.path

/-- src/dvc/output/hdfs.py `OutputHDFS.remove`: same shape for hdfs. -/
def OutputHDFS.remove (o : OutputHDFS) (_ignore_remove : Bool) : RemoteOp :=
  RemoteOp.remove o.remote o.path

/-- C10: for each backend output entry, `remove` has the same effect
for `ignore_remove = true` as for `ignore_remove = false`, namely the
single backend-remote removal of the entry's path. -/
theorem output_remove_ignores_flag (o3 : OutputS3) (og : OutputGS) (oh : OutputHDFS) :
    (o3.remove true = o3.remove false ∧ o3.remove true = RemoteOp.remove o3.remote o3.path)
    ∧ (og.remove true = og.remove false ∧ og.remove true = RemoteOp.remove og.remote og.path)
    ∧ (oh.remove true = oh.remove false ∧ oh.remove true = RemoteOp.remove oh.remote oh.path) :=
  ⟨⟨rfl, rfl⟩, ⟨rfl, rfl⟩, ⟨rfl, rfl⟩⟩

/-! Python dictionaries for `status`, as insertion-ordered association
lists. -/

/-- Python `dict.__setitem__`: overwrite the value at the key when the
key is present, otherwise append the pair. -/
def dictSet {α : Type} (d : List (String × α)) (k : String) (v : α) : List (String × α) :=
  if d.any (fun p => p.1 == k) then d.map (fun p => if p.1 == k then (k, v) else p)
  else d ++ [(k, v)]

/-- Python `dict.update`: set every pair of `e` into `d`, in order. -/
def dictUpdate {α : Type} (d e : List (String × α)) : List (String × α) :=
  e.foldl (fun a p => dictSet a p.1 p.2) d

/-- Setting a key never empties a dictionary. -/
theorem dictSet_ne_nil {α : Type} (d : List (String × α)) (k : String) (v : α) :
    dictSet d k v ≠ [] := by
  cases d with
  | nil => simp [dictSet]
  | cons x xs =>
    by_cases h : ((x :: xs).any (fun p => p.1 == k)) = true
    · simp [dictSet, h]
    · simp [dictSet, h]

/-- `dict.update` yields the empty dictionary exactly when both inputs
are empty. -/
theorem dictUpdate_eq_nil {α : Type} (d e : List (String × α)) :
    dictUpdate d e = [] ↔ (d = [] ∧ e = []) := by
  induction e generalizing d with
  | nil => simp [dictUpdate]
  | cons x xs ih =>
    have hstep : dictUpdate d (x :: xs) = dictUpdate (dictSet d x.1 x.2) xs := rfl
    rw [hstep, ih]
    simp [dictSet_ne_nil]

/-- Folding `dict.update` over a list of entry statuses is empty
exactly when the start dictionary and every entry status are empty. -/
theorem fold_update_eq_nil {α : Type} (f : Entry → List (String × α)) (l : List Entry) (acc : List (String × α)) :
    l.foldl (fun a e => dictUpdate a (f e)) acc = [] ↔ (acc = [] ∧ ∀ e ∈ l, f e = []) := by
  induction l generalizing acc with
  | nil => simp
  | cons x xs ih =>
    simp only [List.foldl_cons, ih, dictUpdate_eq_nil, List.forall_mem_cons]
    tauto

/-- stage.py `Stage._status`: merge every entry's `status()` into one
dictionary; return `{name: merged}` when the merge is non-empty,
otherwise the empty dictionary. -/
def Stage._status (env : Env) (entries : List Entry) (name : String) : List (String × List (String × String)) :=
  let ret := entries.foldl (fun a e => dictUpdate a (env.entryStatus e.path)) []
  if ret != [] then [(name, ret)] else []

/-- stage.py `Stage.status`: merge the deps report and the outs report
into one dictionary; return `{relpath: merged}` when the merge is
non-empty or the aggregate fingerprint changed or the stage is a
callback stage, otherwise the empty dictionary. -/
def Stage.status (s : Stage) (env : Env) (H : Md5Fn) : List (String × List (String × List (String × String))) :=
  let ret := dictUpdate (dictUpdate [] (Stage._status env s.deps "deps")) (Stage._status env s.outs "outs")
  if ret != [] || s.changed_md5 H || s.is_callback then [(env.relpath s.path, ret)] else []

/-- The per-role report of `_status` is empty exactly when every entry
reports an empty status. -/
theorem _status_eq_nil (env : Env) (entries : List Entry) (name : String) :
    Stage._status env entries name = [] ↔ ∀ e ∈ entries, env.entryStatus e.path = [] := by
  have hf := fold_update_eq_nil (fun e => env.entryStatus e.path) entries []
  have hdef : Stage._status env entries name
      = if (entries.foldl (fun a e => dictUpdate a (env.entryStatus e.path)) [] != []) then [(name, entries.foldl (fun a e => dictUpdate a (env.entryStatus e.path)) [])] else [] := rfl
  by_cases h : entries.foldl (fun a e => dictUpdate a (env.entryStatus e.path)) [] = []
  · rw [hdef, h]
    simpa using (hf.mp h).2
  · have hcond : ((entries.foldl (fun a e => dictUpdate a (env.entryStatus e.path)) []) != []) = true := by
      simpa [bne_iff_ne] using h
    rw [hdef, if_pos hcond]
    constructor
    · intro habs
      exact (List.cons_ne_nil _ _ habs).elim
    · intro hall
      exact absurd (hf.mpr ⟨rfl, hall⟩) h

/-- C9: `status()` returns the empty mapping exactly when the stage is
not a callback stage, `changed_md5()` is false, and every dependency
and output reports an empty `status()`; otherwise it returns the
single-key mapping from the stage's relative path to the merge of the
per-entry reports under the keys "deps" and "outs" — the empty inner
mapping when only the callback or md5 condition holds. -/
theorem stage_status_empty_iff (s : Stage) (env : Env) (H : Md5Fn) :
    (s.status env H = [] ↔
      (s.is_callback = false ∧ s.changed_md5 H = false
        ∧ ∀ e ∈ s.deps ++ s.outs, env.entryStatus e.path = []))
    ∧ (s.status env H ≠ [] →
        s.status env H = [(env.relpath s.path, dictUpdate (dictUpdate [] (Stage._status env s.deps "deps")) (Stage._status env s.outs "outs"))])
    ∧ ((∀ e ∈ s.deps ++ s.outs, env.entryStatus e.path = []) →
        (s.is_callback = true ∨ s.changed_md5 H = true) →
        s.status env H = [(env.relpath s.path, [])]) := by
  have hdef : s.status env H
      = if (dictUpdate (dictUpdate [] (Stage._status env s.deps "deps")) (Stage._status env s.outs "outs") != []) || s.changed_md5 H || s.is_callback then [(env.relpath s.path, dictUpdate (dictUpdate [] (Stage._status env s.deps "deps")) (Stage._status env s.outs "outs"))] else [] := rfl
  refine ⟨?_, ?_, ?_⟩
  · by_cases hr : dictUpdate (dictUpdate [] (Stage._status env s.deps "deps")) (Stage._status env s.outs "outs") = []
    · have hde : Stage._status env s.deps "deps" = [] ∧ Stage._status env s.outs "outs" = [] := by
        have h1 := (dictUpdate_eq_nil _ _).mp hr
        have h2 := (dictUpdate_eq_nil _ _).mp h1.1
        exact ⟨h2.2, h1.2⟩
      have hdeps := (_status_eq_nil env s.deps "deps").mp hde.1
      have houts := (_status_eq_nil env s.outs "outs").mp hde.2
      rw [hdef, hr]
      cases h3 : s.changed_md5 H <;> cases h1 : s.is_callback <;>
        simp_all [List.forall_mem_append]
      exact fun e he => he.elim (hdeps e) (houts e)
    · have hne : ∃ e ∈ s.deps ++ s.outs, env.entryStatus e.path ≠ [] := by
        by_contra hall
        push_neg at hall
        apply hr
        rw [dictUpdate_eq_nil, dictUpdate_eq_nil]
        refine ⟨⟨rfl, ?_⟩, ?_⟩
        · exact (_status_eq_nil env s.deps "deps").mpr
            (fun e he => hall e (List.mem_append_left _ he))
        · exact (_status_eq_nil env s.outs "outs").mpr
            (fun e he => hall e (List.mem_append_right _ he))
      have hcond : ((dictUpdate (dictUpdate [] (Stage._status env s.deps "deps")) (Stage._status env s.outs "outs") != []) || s.changed_md5 H || s.is_callback) = true := by
        have hb : (dictUpdate (dictUpdate [] (Stage._status env s.deps "deps")) (Stage._status env s.outs "outs") != []) = true := by
          simpa [bne_iff_ne] using hr
        simp [hb]
      rw [hdef, if_pos hcond]
      constructor
      · intro habs
        exact (List.cons_ne_nil _ _ habs).elim
      · intro hall
        rcases hne with ⟨e, he, hst⟩
        exact absurd (hall.2.2 e he) hst
  · intro hne
    rw [hdef] at hne ⊢
    by_cases hc : ((dictUpdate (dictUpdate [] (Stage._status env s.deps "deps")) (Stage._status env s.outs "outs") != []) || s.changed_md5 H || s.is_callback) = true
    · rw [if_pos hc]
    · rw [if_neg hc] at hne
      exact absurd rfl hne
  · intro hall hcond
    have hde : Stage._status env s.deps "deps" = [] :=
      (_status_eq_nil env s.deps "deps").mpr (fun e he => hall e (List.mem_append_left _ he))
    have hoe : Stage._status env s.outs "outs" = [] :=
      (_status_eq_nil env s.outs "outs").mpr (fun e he => hall e (List.mem_append_right _ he))
    rw [hdef, hde, hoe]
    rcases hcond with h | h <;> simp [dictUpdate, h]

/-- Witness for C9 at a concrete stage and environment (fully unchanged,
non-callback stage: the status is empty). -/
theorem stage_status_empty_iff_witness :
    (wStage1.status wEnv wH = [] ↔
      (wStage1.is_callback = false ∧ wStage1.changed_md5 wH = false
        ∧ ∀ e ∈ wStage1.deps ++ wStage1.outs, wEnv.entryStatus e.path = []))
    ∧ (wStage1.status wEnv wH ≠ [] →
        wStage1.status wEnv wH = [(wEnv.relpath wStage1.path, dictUpdate (dictUpdate [] (Stage._status wEnv wStage1.deps "deps")) (Stage._status wEnv wStage1.outs "outs"))])
    ∧ ((∀ e ∈ wStage1.deps ++ wStage1.outs, wEnv.entryStatus e.path = []) →
        (wStage1.is_callback = true ∨ wStage1.changed_md5 wH = true) →
        wStage1.status wEnv wH = [(wEnv.relpath wStage1.path, [])]) :=
  stage_status_empty_iff wStage1 wEnv wH

end Dvc
